import Mathlib

/-!
Shallow embedding of the Meteocat MCP server repository
(`src/meteocat_client.py` and `src/server.py`).

The repository is a thin HTTP client plus a tool dispatcher.  Pure URL
construction is embedded as Lean functions over `Int`/`String`/`Option`
parameters.  The HTTP exchange is embedded by passing an explicit
environment `env : HttpRequest → HttpResponse` standing for the upstream
server; a response carries its status code, raw body text, and the result
of the external JSON parser (`Option Json`, `none` when the body is not
valid JSON — `response.json()` raising is library behaviour, not
repository code).  Each client method is embedded in state-passing style:
it returns the client value after the call, the list of HTTP requests it
issued, and the result.
-/

/-- Generic JSON values, as produced by the external JSON parser.
Numbers are modelled as integers; no claim depends on numeric payloads. -/
inductive Json where
  | null
  | bool (b : Bool)
  | num (n : Int)
  | str (s : String)
  | arr (elems : List Json)
  | obj (fields : List (String × Json))

/-- Python truthiness of an `Optional[str]` value (`if state:`):
`None` and the empty string are falsy, every other string is truthy. -/
def truthyStr : Option String → Bool
  | none => false
  | some s => !s.isEmpty

/-- Python `f"{n:02d}"`: decimal rendering zero-padded on the left to
width 2 (the sign counts towards the width, so negative values of one or
more digits are rendered unpadded). -/
def pad2 (n : Int) : String :=
  if n < 0 then toString n
  else if n < 10 then "0" ++ toString n
  else toString n

/-- Python `sep.join(parts)`. -/
def strJoin (sep : String) : List String → String
  | [] => ""
  | [x] => x
  | x :: xs => x ++ sep ++ strJoin sep xs

mutual

/-- Python `str(...)` applied to a decoded JSON value (`repr` rendering:
`None`/`True`/`False`, single-quoted strings, `[...]` lists, dicts).
Escaping of quote characters inside strings is not modelled; no claim
inspects this rendering. -/
def pyRepr : Json → String
  | .null => "None"
  | .bool b => if b then "True" else "False"
  | .num n => toString n
  | .str s => "'" ++ s ++ "'"
  | .arr xs => "[" ++ pyReprList xs ++ "]"
  | .obj fs => "\x7b" ++ pyReprFields fs ++ "\x7d"

/-- Comma-separated rendering of the elements of a JSON list. -/
def pyReprList : List Json → String
  | [] => ""
  | [x] => pyRepr x
  | x :: xs => pyRepr x ++ ", " ++ pyReprList xs

/-- Comma-separated rendering of the fields of a JSON object. -/
def pyReprFields : List (String × Json) → String
  | [] => ""
  | [(k, v)] => "'" ++ k ++ "': " ++ pyRepr v
  | (k, v) :: fs => "'" ++ k ++ "': " ++ pyRepr v ++ ", " ++ pyReprFields fs

end

/-- An outbound HTTP GET request: URL and headers
(`client.get(url, headers=self.headers)`). -/
structure HttpRequest where
  url : String
  headers : List (String × String)

/-- An upstream HTTP response as consumed by the client: status code, raw
body text, and the external JSON parser's view of the body (`none` when
`response.json()` would raise). -/
structure HttpResponse where
  status_code : Nat
  text : String
  json : Option Json

/-- Failures crossing the client boundary: the `Exception` raised on a
non-200 status (carrying status code and raw body), or the decode error
raised by the external JSON library on an unparsable success body. -/
inductive ClientError where
  | apiError (status : Nat) (body : String)
  | parseError

/-- The message string of the raised error.  For `apiError` this is the
f-string `f"Meteocat API error ({response.status_code}): {response.text}"`
from `_request`; the decode error's message comes from the external JSON
library and is not modelled. -/
def ClientError.message : ClientError → String
  | .apiError status body => "Meteocat API error (" ++ toString status ++ "): " ++ body
  | .parseError => ""

-- API base URLs (module-level constants of `meteocat_client.py`).

def XEMA_BASE_URL : String := "https://api.meteo.cat/xema/v1"

def PRONOSTIC_BASE_URL : String := "https://api.meteo.cat/pronostic/v1"

def REFERENCIA_BASE_URL : String := "https://api.meteo.cat/referencia/v1"

/-- The client: an API key and the header set built at construction. -/
structure MeteocatClient where
  api_key : String
  headers : List (String × String)

/-- `MeteocatClient.__init__`: raises `ValueError` when the key is absent
(`None`) or empty (`if not api_key`), otherwise stores the key and builds
the fixed header set. -/
def MeteocatClient.init (api_key : Option String) : Except String MeteocatClient :=
  if truthyStr api_key then
    Except.ok
      { api_key := api_key.getD ""
        headers := [("x-api-key", api_key.getD ""), ("Accept", "application/json")] }
  else
    Except.error "METEOCAT_API_KEY is required"

/-- The status/parse handling of `_request`: a non-200 status raises the
API error carrying status code and raw body text; on status 200 the body's
JSON decoding is returned, a decode failure raising the parse error. -/
def handleResponse (response : HttpResponse) : Except ClientError Json :=
  if response.status_code ≠ 200 then
    Except.error (ClientError.apiError response.status_code response.text)
  else
    match response.json with
    | some j => Except.ok j
    | none => Except.error ClientError.parseError

/-- The outcome of one client method call: the client value after the
call, the HTTP requests issued, and the returned or raised result. -/
structure ClientCall where
  client : MeteocatClient
  requests : List HttpRequest
  result : Except ClientError Json

/-- `MeteocatClient._request`: one GET with the shared headers against the
given URL, then status/parse handling of the response.  The method reads
`self.headers` and assigns nothing to `self`, so the client after the call
is the client before it. -/
def MeteocatClient.request (c : MeteocatClient) (url : String)
    (env : HttpRequest → HttpResponse) : ClientCall :=
  let req : HttpRequest := { url := url, headers := c.headers }
  { client := c, requests := [req], result := handleResponse (env req) }

-- URL construction, one definition per client method.

/-- URL of `get_municipalities`. -/
def getMunicipalitiesUrl : String := REFERENCIA_BASE_URL ++ "/municipis"

/-- URL of `get_regions`. -/
def getRegionsUrl : String := REFERENCIA_BASE_URL ++ "/comarques"

/-- URL of `get_weather_symbols`. -/
def getWeatherSymbolsUrl : String := REFERENCIA_BASE_URL ++ "/simbols"

/-- The `params` list built by `get_all_stations`: `estat` and `data`
entries appended under Python truthiness of the arguments. -/
def getAllStationsParams (state date : Option String) : List String :=
  (if truthyStr state then ["estat=" ++ state.getD ""] else []) ++
  (if truthyStr date then ["data=" ++ date.getD ""] else [])

/-- URL of `get_all_stations`: the metadata path, with `?` and the
`&`-joined params appended when the params list is nonempty. -/
def getAllStationsUrl (state date : Option String) : String :=
  let url := XEMA_BASE_URL ++ "/estacions/metadades"
  let params := getAllStationsParams state date
  if params.isEmpty then url else url ++ "?" ++ strJoin "&" params

/-- URL of `get_station`. -/
def getStationUrl (station_code : String) : String :=
  XEMA_BASE_URL ++ "/estacions/" ++ station_code ++ "/metadades"

/-- URL of `get_station_variables`: `?estat=` appended under truthiness. -/
def getStationVariablesUrl (station_code : String) (state : Option String) : String :=
  let url := XEMA_BASE_URL ++ "/estacions/" ++ station_code ++ "/variables/metadades"
  if truthyStr state then url ++ ("?estat=" ++ state.getD "") else url

/-- URL of `get_all_variables`. -/
def getAllVariablesUrl : String := XEMA_BASE_URL ++ "/variables/metadades"

/-- URL of `get_latest_readings`: `?codiEstacio=` appended under
truthiness. -/
def getLatestReadingsUrl (variable_code : Int) (station_code : Option String) : String :=
  let url := XEMA_BASE_URL ++ "/variables/mesurades/" ++ toString variable_code ++ "/ultimes"
  if truthyStr station_code then url ++ ("?codiEstacio=" ++ station_code.getD "") else url

/-- URL of `get_readings`: variable code, year as-is, month and day
zero-padded to two digits, optional `?codiEstacio=`. -/
def getReadingsUrl (variable_code year month day : Int) (station_code : Option String) : String :=
  let url := XEMA_BASE_URL ++ "/variables/mesurades/" ++ toString variable_code ++ "/" ++
    toString year ++ "/" ++ pad2 month ++ "/" ++ pad2 day
  if truthyStr station_code then url ++ ("?codiEstacio=" ++ station_code.getD "") else url

/-- URL of `get_municipal_forecast_72h`. -/
def getMunicipalForecast72hUrl (municipality_code : String) : String :=
  PRONOSTIC_BASE_URL ++ "/municipalHoraria/" ++ municipality_code

/-- URL of `get_municipal_forecast_8days`. -/
def getMunicipalForecast8daysUrl (municipality_code : String) : String :=
  PRONOSTIC_BASE_URL ++ "/municipal/" ++ municipality_code

/-- URL of `get_general_forecast`. -/
def getGeneralForecastUrl (year month day : Int) : String :=
  PRONOSTIC_BASE_URL ++ "/catalunya/" ++ toString year ++ "/" ++ pad2 month ++ "/" ++ pad2 day

/-- URL of `get_regional_forecast`. -/
def getRegionalForecastUrl (year month day : Int) : String :=
  PRONOSTIC_BASE_URL ++ "/comarcal/" ++ toString year ++ "/" ++ pad2 month ++ "/" ++ pad2 day

/-- URL of `get_uvi_forecast`. -/
def getUviForecastUrl (municipality_code : String) : String :=
  PRONOSTIC_BASE_URL ++ "/uvi/" ++ municipality_code

-- The fourteen client methods.

/-- `MeteocatClient.get_municipalities`. -/
def MeteocatClient.get_municipalities (c : MeteocatClient)
    (env : HttpRequest → HttpResponse) : ClientCall :=
  c.request getMunicipalitiesUrl env

/-- `MeteocatClient.get_regions`. -/
def MeteocatClient.get_regions (c : MeteocatClient)
    (env : HttpRequest → HttpResponse) : ClientCall :=
  c.request getRegionsUrl env

/-- `MeteocatClient.get_weather_symbols`. -/
def MeteocatClient.get_weather_symbols (c : MeteocatClient)
    (env : HttpRequest → HttpResponse) : ClientCall :=
  c.request getWeatherSymbolsUrl env

/-- `MeteocatClient.get_all_stations`. -/
def MeteocatClient.get_all_stations (c : MeteocatClient) (state date : Option String)
    (env : HttpRequest → HttpResponse) : ClientCall :=
  c.request (getAllStationsUrl state date) env

/-- `MeteocatClient.get_station`. -/
def MeteocatClient.get_station (c : MeteocatClient) (station_code : String)
    (env : HttpRequest → HttpResponse) : ClientCall :=
  c.request (getStationUrl station_code) env

/-- `MeteocatClient.get_station_variables`. -/
def MeteocatClient.get_station_variables (c : MeteocatClient) (station_code : String)
    (state : Option String) (env : HttpRequest → HttpResponse) : ClientCall :=
  c.request (getStationVariablesUrl station_code state) env

/-- `MeteocatClient.get_all_variables`. -/
def MeteocatClient.get_all_variables (c : MeteocatClient)
    (env : HttpRequest → HttpResponse) : ClientCall :=
  c.request getAllVariablesUrl env

/-- `MeteocatClient.get_latest_readings`. -/
def MeteocatClient.get_latest_readings (c : MeteocatClient) (variable_code : Int)
    (station_code : Option String) (env : HttpRequest → HttpResponse) : ClientCall :=
  c.request (getLatestReadingsUrl variable_code station_code) env

/-- `MeteocatClient.get_readings`. -/
def MeteocatClient.get_readings (c : MeteocatClient) (variable_code year month day : Int)
    (station_code : Option String) (env : HttpRequest → HttpResponse) : ClientCall :=
  c.request (getReadingsUrl variable_code year month day station_code) env

/-- `MeteocatClient.get_municipal_forecast_72h`. -/
def MeteocatClient.get_municipal_forecast_72h (c : MeteocatClient)
    (municipality_code : String) (env : HttpRequest → HttpResponse) : ClientCall :=
  c.request (getMunicipalForecast72hUrl municipality_code) env

/-- `MeteocatClient.get_municipal_forecast_8days`. -/
def MeteocatClient.get_municipal_forecast_8days (c : MeteocatClient)
    (municipality_code : String) (env : HttpRequest → HttpResponse) : ClientCall :=
  c.request (getMunicipalForecast8daysUrl municipality_code) env

/-- `MeteocatClient.get_general_forecast`. -/
def MeteocatClient.get_general_forecast (c : MeteocatClient) (year month day : Int)
    (env : HttpRequest → HttpResponse) : ClientCall :=
  c.request (getGeneralForecastUrl year month day) env

/-- `MeteocatClient.get_regional_forecast`. -/
def MeteocatClient.get_regional_forecast (c : MeteocatClient) (year month day : Int)
    (env : HttpRequest → HttpResponse) : ClientCall :=
  c.request (getRegionalForecastUrl year month day) env

/-- `MeteocatClient.get_uvi_forecast`. -/
def MeteocatClient.get_uvi_forecast (c : MeteocatClient) (municipality_code : String)
    (env : HttpRequest → HttpResponse) : ClientCall :=
  c.request (getUviForecastUrl municipality_code) env

-- The tool dispatcher (`server.py`).

/-- The fixed configuration-error string returned by every tool when the
client was never constructed. -/
def configErrorMessage : String := "Error: Server not configured (missing API key)"

/-- The outcome of one tool invocation: the HTTP requests issued and the
returned string (or the error propagating out of the client). -/
abbrev ToolOutcome := List HttpRequest × Except ClientError String

/-- Shared shape of every tool body: `if not client: return <fixed
message>` and otherwise one client call whose JSON result is rendered
with `str(...)`. -/
def runTool (client : Option MeteocatClient)
    (op : MeteocatClient → ClientCall) : ToolOutcome :=
  match client with
  | none => ([], Except.ok configErrorMessage)
  | some c =>
    let call := op c
    (call.requests, call.result.map pyRepr)

/-- Tool `get_municipalities`. -/
def Server.get_municipalities (client : Option MeteocatClient)
    (env : HttpRequest → HttpResponse) : ToolOutcome :=
  runTool client (fun c => c.get_municipalities env)

/-- Tool `get_regions`. -/
def Server.get_regions (client : Option MeteocatClient)
    (env : HttpRequest → HttpResponse) : ToolOutcome :=
  runTool client (fun c => c.get_regions env)

/-- Tool `get_weather_symbols`. -/
def Server.get_weather_symbols (client : Option MeteocatClient)
    (env : HttpRequest → HttpResponse) : ToolOutcome :=
  runTool client (fun c => c.get_weather_symbols env)

/-- Tool `get_all_stations`. -/
def Server.get_all_stations (client : Option MeteocatClient) (state date : Option String)
    (env : HttpRequest → HttpResponse) : ToolOutcome :=
  runTool client (fun c => c.get_all_stations state date env)

/-- Tool `get_station`. -/
def Server.get_station (client : Option MeteocatClient) (station_code : String)
    (env : HttpRequest → HttpResponse) : ToolOutcome :=
  runTool client (fun c => c.get_station station_code env)

/-- Tool `get_all_variables`. -/
def Server.get_all_variables (client : Option MeteocatClient)
    (env : HttpRequest → HttpResponse) : ToolOutcome :=
  runTool client (fun c => c.get_all_variables env)

/-- Tool `get_station_variables`. -/
def Server.get_station_variables (client : Option MeteocatClient) (station_code : String)
    (state : Option String) (env : HttpRequest → HttpResponse) : ToolOutcome :=
  runTool client (fun c => c.get_station_variables station_code state env)

/-- Tool `get_latest_readings`. -/
def Server.get_latest_readings (client : Option MeteocatClient) (variable_code : Int)
    (station_code : Option String) (env : HttpRequest → HttpResponse) : ToolOutcome :=
  runTool client (fun c => c.get_latest_readings variable_code station_code env)

/-- Tool `get_readings`. -/
def Server.get_readings (client : Option MeteocatClient) (variable_code year month day : Int)
    (station_code : Option String) (env : HttpRequest → HttpResponse) : ToolOutcome :=
  runTool client (fun c => c.get_readings variable_code year month day station_code env)

/-- Tool `get_municipal_forecast_72h`. -/
def Server.get_municipal_forecast_72h (client : Option MeteocatClient)
    (municipality_code : String) (env : HttpRequest → HttpResponse) : ToolOutcome :=
  runTool client (fun c => c.get_municipal_forecast_72h municipality_code env)

/-- Tool `get_municipal_forecast_8days`. -/
def Server.get_municipal_forecast_8days (client : Option MeteocatClient)
    (municipality_code : String) (env : HttpRequest → HttpResponse) : ToolOutcome :=
  runTool client (fun c => c.get_municipal_forecast_8days municipality_code env)

/-- Tool `get_general_forecast`. -/
def Server.get_general_forecast (client : Option MeteocatClient) (year month day : Int)
    (env : HttpRequest → HttpResponse) : ToolOutcome :=
  runTool client (fun c => c.get_general_forecast year month day env)

/-- Tool `get_regional_forecast`. -/
def Server.get_regional_forecast (client : Option MeteocatClient) (year month day : Int)
    (env : HttpRequest → HttpResponse) : ToolOutcome :=
  runTool client (fun c => c.get_regional_forecast year month day env)

/-- Tool `get_uvi_forecast`. -/
def Server.get_uvi_forecast (client : Option MeteocatClient) (municipality_code : String)
    (env : HttpRequest → HttpResponse) : ToolOutcome :=
  runTool client (fun c => c.get_uvi_forecast municipality_code env)

-- String containment vocabulary (used to state that an error message
-- carries the status code and body, and that a query key is absent).

/-- Boolean list-prefix test. -/
def listPrefixOf : List Char → List Char → Bool
  | [], _ => true
  | _ :: _, [] => false
  | a :: as, b :: bs => a == b && listPrefixOf as bs

/-- Boolean list-infix test: the needle is a prefix of some suffix. -/
def listInfix : List Char → List Char → Bool
  | needle, [] => needle.isEmpty
  | needle, h :: t => listPrefixOf needle (h :: t) || listInfix needle t

/-- Substring containment on strings. -/
def strContains (hay needle : String) : Bool := listInfix needle.data hay.data

theorem listPrefixOf_self_append (p t : List Char) : listPrefixOf p (p ++ t) = true := by
  induction p with
  | nil => rfl
  | cons a as ih => simp [listPrefixOf, ih]

theorem listInfix_of_pre (n h : List Char) (hp : listPrefixOf n h = true) :
    listInfix n h = true := by
  cases h with
  | nil =>
    cases n with
    | nil => rfl
    | cons a as => simp [listPrefixOf] at hp
  | cons b bs => simp [listInfix, hp]

theorem listInfix_parts (pre mid post : List Char) :
    listInfix mid (pre ++ (mid ++ post)) = true := by
  induction pre with
  | nil => exact listInfix_of_pre _ _ (listPrefixOf_self_append mid post)
  | cons a as ih => simp [listInfix, ih]

theorem strContains_middle (a b c : String) : strContains (a ++ b ++ c) b = true := by
  have hd : (a ++ b ++ c).data = a.data ++ (b.data ++ c.data) := by
    simp [String.data_append]
  unfold strContains
  rw [hd]
  exact listInfix_parts a.data b.data c.data

theorem strContains_append_right (a b : String) : strContains (a ++ b) b = true := by
  have hd : (a ++ b).data = a.data ++ (b.data ++ []) := by
    simp [String.data_append]
  unfold strContains
  rw [hd]
  exact listInfix_parts a.data b.data []

-- Small facts about the embedded Python primitives.

theorem truthyStr_of_ne (s : String) (h : s ≠ "") : truthyStr (some s) = true := by
  have he : s.isEmpty = false := by
    rw [Bool.eq_false_iff]
    intro hh
    exact h ((String.isEmpty_iff s).mp hh)
  simp [truthyStr, he]

theorem optionStringCases (o : Option String) (h : o ≠ some "") :
    o = none ∨ ∃ s, o = some s ∧ s ≠ "" := by
  cases o with
  | none => exact Or.inl rfl
  | some s =>
    refine Or.inr ⟨s, rfl, ?_⟩
    intro hs
    exact h (by rw [hs])

-- Documented URL templates, written from the spec (sections 4.1 and 6),
-- to be compared with the URL construction embedded from the source.

/-- Spec, section 4.1: month and day are zero-padded to two digits. -/
def spec_pad2 (n : Int) : String :=
  if n < 10 then "0" ++ toString n else toString n

/-- Spec template `{xema-base}/estacions/metadades[?estat=&data=]`. -/
def spec_allStationsUrl (state date : Option String) : String :=
  XEMA_BASE_URL ++ "/estacions/metadades" ++
  (match state, date with
   | none, none => ""
   | some s, none => "?" ++ ("estat=" ++ s)
   | none, some d => "?" ++ ("data=" ++ d)
   | some s, some d => "?" ++ ("estat=" ++ s ++ "&" ++ ("data=" ++ d)))

/-- Spec template `{xema-base}/estacions/{code}/metadades`. -/
def spec_stationUrl (code : String) : String :=
  XEMA_BASE_URL ++ ("/estacions/" ++ code ++ "/metadades")

/-- Spec template `{xema-base}/estacions/{code}/variables/metadades[?estat=]`. -/
def spec_stationVariablesUrl (code : String) (state : Option String) : String :=
  XEMA_BASE_URL ++ ("/estacions/" ++ code ++ "/variables/metadades") ++
  (match state with
   | none => ""
   | some s => "?estat=" ++ s)

/-- Spec template `{xema-base}/variables/metadades`. -/
def spec_variablesUrl : String := XEMA_BASE_URL ++ "/variables/metadades"

/-- Spec template `{xema-base}/variables/mesurades/{variableCode}/ultimes[?codiEstacio=]`. -/
def spec_latestReadingsUrl (variable_code : Int) (station_code : Option String) : String :=
  XEMA_BASE_URL ++ ("/variables/mesurades/" ++ toString variable_code ++ "/ultimes") ++
  (match station_code with
   | none => ""
   | some s => "?codiEstacio=" ++ s)

/-- Spec template `{xema-base}/variables/mesurades/{variableCode}/{YYYY}/{MM}/{DD}[?codiEstacio=]`. -/
def spec_readingsUrl (variable_code year month day : Int) (station_code : Option String) : String :=
  XEMA_BASE_URL ++ ("/variables/mesurades/" ++ toString variable_code ++ "/" ++
    toString year ++ "/" ++ spec_pad2 month ++ "/" ++ spec_pad2 day) ++
  (match station_code with
   | none => ""
   | some s => "?codiEstacio=" ++ s)

/-- Spec template `{forecast-base}/municipalHoraria/{municipalityCode}`. -/
def spec_municipalHourlyUrl (municipality_code : String) : String :=
  PRONOSTIC_BASE_URL ++ ("/municipalHoraria/" ++ municipality_code)

/-- Spec template `{forecast-base}/municipal/{municipalityCode}`. -/
def spec_municipalUrl (municipality_code : String) : String :=
  PRONOSTIC_BASE_URL ++ ("/municipal/" ++ municipality_code)

/-- Spec template `{forecast-base}/catalunya/{YYYY}/{MM}/{DD}`. -/
def spec_catalunyaUrl (year month day : Int) : String :=
  PRONOSTIC_BASE_URL ++ ("/catalunya/" ++ toString year ++ "/" ++
    spec_pad2 month ++ "/" ++ spec_pad2 day)

/-- Spec template `{forecast-base}/comarcal/{YYYY}/{MM}/{DD}`. -/
def spec_comarcalUrl (year month day : Int) : String :=
  PRONOSTIC_BASE_URL ++ ("/comarcal/" ++ toString year ++ "/" ++
    spec_pad2 month ++ "/" ++ spec_pad2 day)

/-- Spec template `{forecast-base}/uvi/{municipalityCode}`. -/
def spec_uviUrl (municipality_code : String) : String :=
  PRONOSTIC_BASE_URL ++ ("/uvi/" ++ municipality_code)

theorem pad2_eq_spec (n : Int) (h : 0 ≤ n) : pad2 n = spec_pad2 n := by
  unfold pad2 spec_pad2
  rw [if_neg (by omega)]

/-- C5: Client construction with an empty or absent credential fails with
the configuration error before any request exists; construction with a
non-empty credential succeeds and builds the fixed header set
(`x-api-key` plus `Accept: application/json`), and every request issued
through the client carries exactly that header set. -/
theorem c5_construction_contract (k : String) (c : MeteocatClient) (url : String)
    (env : HttpRequest → HttpResponse) (hk : k ≠ "") :
    MeteocatClient.init none = Except.error "METEOCAT_API_KEY is required" ∧
    MeteocatClient.init (some "") = Except.error "METEOCAT_API_KEY is required" ∧
    MeteocatClient.init (some k) = Except.ok
      { api_key := k, headers := [("x-api-key", k), ("Accept", "application/json")] } ∧
    (c.request url env).requests = [{ url := url, headers := c.headers }] := by
  refine ⟨rfl, rfl, ?_, rfl⟩
  simp [MeteocatClient.init, truthyStr_of_ne k hk]

/-- C5 witness at a concrete non-empty key. -/
theorem c5_construction_contract_witness :
    MeteocatClient.init (some "secret") = Except.ok
      { api_key := "secret"
        headers := [("x-api-key", "secret"), ("Accept", "application/json")] } :=
  (c5_construction_contract "secret"
    { api_key := "secret", headers := [] } "u" (fun _ => ⟨200, "", none⟩)
    (by decide)).2.2.1

/-- C6: with the client never constructed (`client = none`), each of the
fourteen dispatcher tools returns the fixed configuration-error string and
issues no HTTP request, independently of the environment and arguments. -/
theorem c6_config_short_circuit (env : HttpRequest → HttpResponse)
    (state date sc : Option String) (code mc : String) (vc y m d : Int) :
    Server.get_municipalities none env = ([], Except.ok configErrorMessage) ∧
    Server.get_regions none env = ([], Except.ok configErrorMessage) ∧
    Server.get_weather_symbols none env = ([], Except.ok configErrorMessage) ∧
    Server.get_all_stations none state date env = ([], Except.ok configErrorMessage) ∧
    Server.get_station none code env = ([], Except.ok configErrorMessage) ∧
    Server.get_all_variables none env = ([], Except.ok configErrorMessage) ∧
    Server.get_station_variables none code state env = ([], Except.ok configErrorMessage) ∧
    Server.get_latest_readings none vc sc env = ([], Except.ok configErrorMessage) ∧
    Server.get_readings none vc y m d sc env = ([], Except.ok configErrorMessage) ∧
    Server.get_municipal_forecast_72h none mc env = ([], Except.ok configErrorMessage) ∧
    Server.get_municipal_forecast_8days none mc env = ([], Except.ok configErrorMessage) ∧
    Server.get_general_forecast none y m d env = ([], Except.ok configErrorMessage) ∧
    Server.get_regional_forecast none y m d env = ([], Except.ok configErrorMessage) ∧
    Server.get_uvi_forecast none mc env = ([], Except.ok configErrorMessage) :=
  ⟨rfl, rfl, rfl, rfl, rfl, rfl, rfl, rfl, rfl, rfl, rfl, rfl, rfl, rfl⟩

/-- C7: on a response whose status the client accepts (200) with a valid
JSON body, the client returns the parsed JSON value itself, whatever its
shape; in particular a JSON array comes back with exactly its elements. -/
theorem c7_success_returns_parsed (resp : HttpResponse) (j : Json)
    (hs : resp.status_code = 200) (hj : resp.json = some j) :
    handleResponse resp = Except.ok j ∧
    (∀ xs, j = Json.arr xs → handleResponse resp = Except.ok (Json.arr xs)) := by
  have h1 : handleResponse resp = Except.ok j := by
    simp [handleResponse, hs, hj]
  exact ⟨h1, fun xs hx => by rw [h1, hx]⟩

/-- C7 witness: a concrete 200 response with an array body round-trips. -/
theorem c7_success_returns_parsed_witness :
    handleResponse
      { status_code := 200, text := "[1, 2]"
        json := some (Json.arr [Json.num 1, Json.num 2]) } =
      Except.ok (Json.arr [Json.num 1, Json.num 2]) :=
  (c7_success_returns_parsed
    { status_code := 200, text := "[1, 2]"
      json := some (Json.arr [Json.num 1, Json.num 2]) }
    (Json.arr [Json.num 1, Json.num 2]) rfl rfl).1

/-- C8: on a 200 response whose body is not valid JSON, the client fails
with the parse error and never returns any value. -/
theorem c8_parse_error_propagates (resp : HttpResponse)
    (hs : resp.status_code = 200) (hj : resp.json = none) :
    handleResponse resp = Except.error ClientError.parseError ∧
    ∀ j, handleResponse resp ≠ Except.ok j := by
  have h1 : handleResponse resp = Except.error ClientError.parseError := by
    simp [handleResponse, hs, hj]
  refine ⟨h1, fun j hok => ?_⟩
  rw [h1] at hok
  exact Except.noConfusion hok

/-- C8 witness at a concrete unparsable 200 response. -/
theorem c8_parse_error_propagates_witness :
    handleResponse { status_code := 200, text := "not json", json := none } =
      Except.error ClientError.parseError :=
  (c8_parse_error_propagates
    { status_code := 200, text := "not json", json := none } rfl rfl).1

/-- C2 counterexample: status 201 is a 2xx success status and the body is
valid JSON, yet the client raises the transport error instead of
returning the parsed value — the code succeeds only on status exactly
200, not on every 2xx status. -/
theorem c2_counterexample :
    (200 ≤ 201 ∧ 201 < 300) ∧
    handleResponse { status_code := 201, text := "[]", json := some (Json.arr []) } =
      Except.error (ClientError.apiError 201 "[]") :=
  ⟨by decide, rfl⟩

/-- C2 (amended): if the status is exactly 200 the client parses the body
and returns the parsed JSON; on any other status (including other 2xx
statuses) it fails with the transport error carrying the numeric status
code and the raw body text — both occur inside the error message — and the
body's JSON parse is never consulted. -/
theorem c2_status_dispatch (resp : HttpResponse) (j : Json) :
    (resp.status_code = 200 → resp.json = some j → handleResponse resp = Except.ok j) ∧
    (resp.status_code ≠ 200 →
      handleResponse resp = Except.error (ClientError.apiError resp.status_code resp.text) ∧
      strContains (ClientError.apiError resp.status_code resp.text).message
        (toString resp.status_code) = true ∧
      strContains (ClientError.apiError resp.status_code resp.text).message
        resp.text = true) := by
  constructor
  · intro hs hj
    simp [handleResponse, hs, hj]
  · intro hne
    refine ⟨by simp [handleResponse, hne], ?_, ?_⟩
    · show strContains
        ("Meteocat API error (" ++ toString resp.status_code ++ "): " ++ resp.text)
        (toString resp.status_code) = true
      rw [String.append_assoc ("Meteocat API error (" ++ toString resp.status_code)
        "): " resp.text]
      exact strContains_middle "Meteocat API error (" (toString resp.status_code)
        ("): " ++ resp.text)
    · exact strContains_append_right
        ("Meteocat API error (" ++ toString resp.status_code ++ "): ") resp.text

/-- C2 witness: the documented 404 scenario — the error carries `404` and
the raw body `not found` in its message. -/
theorem c2_status_dispatch_witness :
    handleResponse { status_code := 404, text := "not found", json := none } =
      Except.error (ClientError.apiError 404 "not found") ∧
    strContains (ClientError.apiError 404 "not found").message "404" = true ∧
    strContains (ClientError.apiError 404 "not found").message "not found" = true := by
  have h := (c2_status_dispatch
    { status_code := 404, text := "not found", json := none } Json.null).2 (by decide)
  exact ⟨h.1, h.2.1, h.2.2⟩

/-- C10: supplying the empty string for an optional parameter yields
exactly the URL built when the parameter is omitted, for every operation
with an optional string parameter, because presence is tested by Python
truthiness. -/
theorem c10_empty_equals_absent (o : Option String) (code : String) (vc y m d : Int) :
    getAllStationsUrl (some "") o = getAllStationsUrl none o ∧
    getAllStationsUrl o (some "") = getAllStationsUrl o none ∧
    getAllStationsUrl (some "") (some "") = getAllStationsUrl none none ∧
    getStationVariablesUrl code (some "") = getStationVariablesUrl code none ∧
    getLatestReadingsUrl vc (some "") = getLatestReadingsUrl vc none ∧
    getReadingsUrl vc y m d (some "") = getReadingsUrl vc y m d none :=
  ⟨rfl, rfl, rfl, rfl, rfl, rfl⟩

/-- C9: every client operation is identity on the client's state (the
credential and header set after the call are those from construction),
and the single request it issues has a URL that is a function of the
operation's parameters alone, with the shared headers. -/
theorem c9_client_immutable (c : MeteocatClient) (env : HttpRequest → HttpResponse)
    (state date sc : Option String) (code mc : String) (vc y m d : Int) :
    (c.get_municipalities env).client = c ∧
    (c.get_municipalities env).requests = [{ url := getMunicipalitiesUrl, headers := c.headers }] ∧
    (c.get_regions env).client = c ∧
    (c.get_regions env).requests = [{ url := getRegionsUrl, headers := c.headers }] ∧
    (c.get_weather_symbols env).client = c ∧
    (c.get_weather_symbols env).requests = [{ url := getWeatherSymbolsUrl, headers := c.headers }] ∧
    (c.get_all_stations state date env).client = c ∧
    (c.get_all_stations state date env).requests =
      [{ url := getAllStationsUrl state date, headers := c.headers }] ∧
    (c.get_station code env).client = c ∧
    (c.get_station code env).requests = [{ url := getStationUrl code, headers := c.headers }] ∧
    (c.get_station_variables code state env).client = c ∧
    (c.get_station_variables code state env).requests =
      [{ url := getStationVariablesUrl code state, headers := c.headers }] ∧
    (c.get_all_variables env).client = c ∧
    (c.get_all_variables env).requests = [{ url := getAllVariablesUrl, headers := c.headers }] ∧
    (c.get_latest_readings vc sc env).client = c ∧
    (c.get_latest_readings vc sc env).requests =
      [{ url := getLatestReadingsUrl vc sc, headers := c.headers }] ∧
    (c.get_readings vc y m d sc env).client = c ∧
    (c.get_readings vc y m d sc env).requests =
      [{ url := getReadingsUrl vc y m d sc, headers := c.headers }] ∧
    (c.get_municipal_forecast_72h mc env).client = c ∧
    (c.get_municipal_forecast_72h mc env).requests =
      [{ url := getMunicipalForecast72hUrl mc, headers := c.headers }] ∧
    (c.get_municipal_forecast_8days mc env).client = c ∧
    (c.get_municipal_forecast_8days mc env).requests =
      [{ url := getMunicipalForecast8daysUrl mc, headers := c.headers }] ∧
    (c.get_general_forecast y m d env).client = c ∧
    (c.get_general_forecast y m d env).requests =
      [{ url := getGeneralForecastUrl y m d, headers := c.headers }] ∧
    (c.get_regional_forecast y m d env).client = c ∧
    (c.get_regional_forecast y m d env).requests =
      [{ url := getRegionalForecastUrl y m d, headers := c.headers }] ∧
    (c.get_uvi_forecast mc env).client = c ∧
    (c.get_uvi_forecast mc env).requests =
      [{ url := getUviForecastUrl mc, headers := c.headers }] :=
  ⟨rfl, rfl, rfl, rfl, rfl, rfl, rfl, rfl, rfl, rfl, rfl, rfl, rfl, rfl,
   rfl, rfl, rfl, rfl, rfl, rfl, rfl, rfl, rfl, rfl, rfl, rfl, rfl, rfl⟩


theorem isEmpty_false_of_ne (s : String) (h : s ≠ "") : s.isEmpty = false := by
  rw [Bool.eq_false_iff]
  intro hh
  exact h ((String.isEmpty_iff s).mp hh)

/-- C1: with valid parameters (in-range month and day, optional string
arguments non-empty when supplied), every operation's constructed URL
matches its documented template; in particular the documented
`get_readings` example builds
`{xema-base}/variables/mesurades/32/2024/03/07?codiEstacio=UG`, and the
three reference operations build the fixed parameter-less paths. -/
theorem c1_url_templates (state date sc : Option String) (code mc : String)
    (vc y m d : Int)
    (hstate : state ≠ some "") (hdate : date ≠ some "") (hsc : sc ≠ some "")
    (hm1 : 1 ≤ m) (hm2 : m ≤ 12) (hd1 : 1 ≤ d) (hd2 : d ≤ 31) :
    getReadingsUrl 32 2024 3 7 (some "UG") =
      "https://api.meteo.cat/xema/v1/variables/mesurades/32/2024/03/07?codiEstacio=UG" ∧
    getMunicipalitiesUrl = "https://api.meteo.cat/referencia/v1/municipis" ∧
    getRegionsUrl = "https://api.meteo.cat/referencia/v1/comarques" ∧
    getWeatherSymbolsUrl = "https://api.meteo.cat/referencia/v1/simbols" ∧
    getAllStationsUrl state date = spec_allStationsUrl state date ∧
    getStationUrl code = spec_stationUrl code ∧
    getStationVariablesUrl code state = spec_stationVariablesUrl code state ∧
    getAllVariablesUrl = spec_variablesUrl ∧
    getLatestReadingsUrl vc sc = spec_latestReadingsUrl vc sc ∧
    getReadingsUrl vc y m d sc = spec_readingsUrl vc y m d sc ∧
    getMunicipalForecast72hUrl mc = spec_municipalHourlyUrl mc ∧
    getMunicipalForecast8daysUrl mc = spec_municipalUrl mc ∧
    getGeneralForecastUrl y m d = spec_catalunyaUrl y m d ∧
    getRegionalForecastUrl y m d = spec_comarcalUrl y m d ∧
    getUviForecastUrl mc = spec_uviUrl mc := by
  have hpm : pad2 m = spec_pad2 m := pad2_eq_spec m (by omega)
  have hpd : pad2 d = spec_pad2 d := pad2_eq_spec d (by omega)
  refine ⟨by decide, by decide, by decide, by decide, ?_, ?_, ?_, rfl, ?_, ?_,
    ?_, ?_, ?_, ?_, ?_⟩
  · rcases optionStringCases state hstate with rfl | ⟨s, rfl, hs⟩
    · rcases optionStringCases date hdate with rfl | ⟨dd, rfl, hdd⟩
      · simp [getAllStationsUrl, getAllStationsParams, spec_allStationsUrl,
          truthyStr, String.append_empty]
      · simp [getAllStationsUrl, getAllStationsParams, spec_allStationsUrl,
          truthyStr, isEmpty_false_of_ne dd hdd, strJoin, XEMA_BASE_URL,
          ← String.append_assoc]
    · rcases optionStringCases date hdate with rfl | ⟨dd, rfl, hdd⟩
      · simp [getAllStationsUrl, getAllStationsParams, spec_allStationsUrl,
          truthyStr, isEmpty_false_of_ne s hs, strJoin, XEMA_BASE_URL,
          ← String.append_assoc]
      · simp [getAllStationsUrl, getAllStationsParams, spec_allStationsUrl,
          truthyStr, isEmpty_false_of_ne s hs, isEmpty_false_of_ne dd hdd,
          strJoin, XEMA_BASE_URL, ← String.append_assoc]
  · simp [getStationUrl, spec_stationUrl, ← String.append_assoc]
  · rcases optionStringCases state hstate with rfl | ⟨s, rfl, hs⟩
    · simp [getStationVariablesUrl, spec_stationVariablesUrl, truthyStr,
        String.append_empty, ← String.append_assoc]
    · simp [getStationVariablesUrl, spec_stationVariablesUrl, truthyStr,
        isEmpty_false_of_ne s hs, XEMA_BASE_URL, ← String.append_assoc]
  · rcases optionStringCases sc hsc with rfl | ⟨s, rfl, hs⟩
    · simp [getLatestReadingsUrl, spec_latestReadingsUrl, truthyStr,
        String.append_empty, ← String.append_assoc]
    · simp [getLatestReadingsUrl, spec_latestReadingsUrl, truthyStr,
        isEmpty_false_of_ne s hs, XEMA_BASE_URL, ← String.append_assoc]
  · rcases optionStringCases sc hsc with rfl | ⟨s, rfl, hs⟩
    · simp [getReadingsUrl, spec_readingsUrl, truthyStr, hpm, hpd,
        String.append_empty, ← String.append_assoc]
    · simp [getReadingsUrl, spec_readingsUrl, truthyStr, hpm, hpd,
        isEmpty_false_of_ne s hs, XEMA_BASE_URL, ← String.append_assoc]
  · simp [getMunicipalForecast72hUrl, spec_municipalHourlyUrl, ← String.append_assoc]
  · simp [getMunicipalForecast8daysUrl, spec_municipalUrl, ← String.append_assoc]
  · simp [getGeneralForecastUrl, spec_catalunyaUrl, hpm, hpd, ← String.append_assoc]
  · simp [getRegionalForecastUrl, spec_comarcalUrl, hpm, hpd, ← String.append_assoc]
  · simp [getUviForecastUrl, spec_uviUrl, ← String.append_assoc]

/-- C1 witness: the documented example scenario, at concrete valid
arguments. -/
theorem c1_url_templates_witness :
    getReadingsUrl 32 2024 3 7 (some "UG") =
      "https://api.meteo.cat/xema/v1/variables/mesurades/32/2024/03/07?codiEstacio=UG" :=
  (c1_url_templates (some "ope") (some "2024-03-07Z") (some "UG") "UG" "080193"
    32 2024 3 7 (by decide) (by decide) (by decide)
    (by decide) (by decide) (by decide) (by decide)).1

/-- C3 counterexample: `get_all_stations` called with `state` supplied as
the empty string builds a URL with no `estat` query parameter at all — the
URL is the one built with the argument omitted — so presence of the query
parameter is not equivalent to the argument having been supplied. -/
theorem c3_counterexample :
    (some "" : Option String) ≠ none ∧
    getAllStationsUrl (some "") none = getAllStationsUrl none none ∧
    strContains (getAllStationsUrl (some "") none) "estat" = false :=
  ⟨by decide, rfl, by decide⟩

/-- C3 (amended): for every operation with optional parameters, the
corresponding query parameter (`estat`, `data`, `codiEstacio`) is present
in the constructed URL if and only if the argument was supplied with a
non-empty string (an argument supplied as the empty string is treated as
absent), and an absent argument contributes nothing to the URL — never an
empty query value.  Stated as an exhaustive case characterization. -/
theorem c3_optional_query_params (s d cs : String) (state date : Option String)
    (code : String) (vc y mo dy : Int)
    (hs : s ≠ "") (hd : d ≠ "") (hcs : cs ≠ "") :
    getAllStationsUrl none none = XEMA_BASE_URL ++ "/estacions/metadades" ∧
    getAllStationsUrl (some s) none =
      XEMA_BASE_URL ++ "/estacions/metadades" ++ "?" ++ ("estat=" ++ s) ∧
    getAllStationsUrl none (some d) =
      XEMA_BASE_URL ++ "/estacions/metadades" ++ "?" ++ ("data=" ++ d) ∧
    getAllStationsUrl (some s) (some d) =
      XEMA_BASE_URL ++ "/estacions/metadades" ++ "?" ++
        ("estat=" ++ s ++ "&" ++ ("data=" ++ d)) ∧
    getAllStationsUrl (some "") date = getAllStationsUrl none date ∧
    getAllStationsUrl state (some "") = getAllStationsUrl state none ∧
    getStationVariablesUrl code none =
      XEMA_BASE_URL ++ "/estacions/" ++ code ++ "/variables/metadades" ∧
    getStationVariablesUrl code (some s) =
      XEMA_BASE_URL ++ "/estacions/" ++ code ++ "/variables/metadades" ++
        ("?estat=" ++ s) ∧
    getStationVariablesUrl code (some "") = getStationVariablesUrl code none ∧
    getLatestReadingsUrl vc none =
      XEMA_BASE_URL ++ "/variables/mesurades/" ++ toString vc ++ "/ultimes" ∧
    getLatestReadingsUrl vc (some cs) =
      XEMA_BASE_URL ++ "/variables/mesurades/" ++ toString vc ++ "/ultimes" ++
        ("?codiEstacio=" ++ cs) ∧
    getLatestReadingsUrl vc (some "") = getLatestReadingsUrl vc none ∧
    getReadingsUrl vc y mo dy none =
      XEMA_BASE_URL ++ "/variables/mesurades/" ++ toString vc ++ "/" ++
        toString y ++ "/" ++ pad2 mo ++ "/" ++ pad2 dy ∧
    getReadingsUrl vc y mo dy (some cs) =
      XEMA_BASE_URL ++ "/variables/mesurades/" ++ toString vc ++ "/" ++
        toString y ++ "/" ++ pad2 mo ++ "/" ++ pad2 dy ++ ("?codiEstacio=" ++ cs) ∧
    getReadingsUrl vc y mo dy (some "") = getReadingsUrl vc y mo dy none := by
  refine ⟨rfl, ?_, ?_, ?_, rfl, ?_, rfl, ?_, rfl, rfl, ?_, rfl, rfl, ?_, rfl⟩
  · simp [getAllStationsUrl, getAllStationsParams, truthyStr,
      isEmpty_false_of_ne s hs, strJoin, XEMA_BASE_URL, ← String.append_assoc]
  · simp [getAllStationsUrl, getAllStationsParams, truthyStr,
      isEmpty_false_of_ne d hd, strJoin, XEMA_BASE_URL, ← String.append_assoc]
  · simp [getAllStationsUrl, getAllStationsParams, truthyStr,
      isEmpty_false_of_ne s hs, isEmpty_false_of_ne d hd, strJoin,
      XEMA_BASE_URL, ← String.append_assoc]
  · cases state with
    | none => rfl
    | some t => rfl
  · simp [getStationVariablesUrl, truthyStr, isEmpty_false_of_ne s hs,
      XEMA_BASE_URL, ← String.append_assoc]
  · simp [getLatestReadingsUrl, truthyStr, isEmpty_false_of_ne cs hcs,
      XEMA_BASE_URL, ← String.append_assoc]
  · simp [getReadingsUrl, truthyStr, isEmpty_false_of_ne cs hcs,
      XEMA_BASE_URL, ← String.append_assoc]

/-- C3 witness: a concrete supplied value renders exactly one query
parameter. -/
theorem c3_optional_query_params_witness :
    getAllStationsUrl (some "ope") none =
      XEMA_BASE_URL ++ "/estacions/metadades" ++ "?" ++ ("estat=" ++ "ope") :=
  (c3_optional_query_params "ope" "2024-01-01Z" "UG" none none "UG" 32 2024 3 7
    (by decide) (by decide) (by decide)).2.1

/-- C4: month and day segments are zero-padded two-digit decimal strings
for values 1..9, values 12 and 31 render as themselves, and no range
validation is applied: the date path is built for every integer input,
out-of-range and negative values included, by the same rendering. -/
theorem c4_zero_padding (vc y m d mo dy : Int)
    (hm1 : 1 ≤ mo) (hm2 : mo ≤ 9) (hd1 : 1 ≤ dy) (hd2 : dy ≤ 9) :
    pad2 mo = "0" ++ toString mo ∧
    (pad2 mo).length = 2 ∧
    pad2 dy = "0" ++ toString dy ∧
    (pad2 dy).length = 2 ∧
    pad2 12 = "12" ∧
    pad2 31 = "31" ∧
    getReadingsUrl vc y m d none =
      XEMA_BASE_URL ++ "/variables/mesurades/" ++ toString vc ++ "/" ++
        toString y ++ "/" ++ pad2 m ++ "/" ++ pad2 d ∧
    getGeneralForecastUrl y m d =
      PRONOSTIC_BASE_URL ++ "/catalunya/" ++ toString y ++ "/" ++ pad2 m ++ "/" ++ pad2 d ∧
    getRegionalForecastUrl y m d =
      PRONOSTIC_BASE_URL ++ "/comarcal/" ++ toString y ++ "/" ++ pad2 m ++ "/" ++ pad2 d ∧
    pad2 13 = "13" ∧
    pad2 0 = "00" ∧
    pad2 (-5) = "-5" ∧
    getGeneralForecastUrl 2024 13 32 =
      "https://api.meteo.cat/pronostic/v1/catalunya/2024/13/32" := by
  have hm : pad2 mo = "0" ++ toString mo := by
    unfold pad2
    rw [if_neg (by omega), if_pos (by omega)]
  have hdp : pad2 dy = "0" ++ toString dy := by
    unfold pad2
    rw [if_neg (by omega), if_pos (by omega)]
  refine ⟨hm, ?_, hdp, ?_, by decide, by decide, rfl, rfl, rfl,
    by decide, by decide, by decide, by decide⟩
  · interval_cases mo <;> decide
  · interval_cases dy <;> decide

/-- C4 witness: the documented example, month 3 and day 7 render as the
two-digit segments `03` and `07`. -/
theorem c4_zero_padding_witness :
    pad2 3 = "0" ++ toString (3 : Int) ∧ pad2 7 = "0" ++ toString (7 : Int) :=
  ⟨(c4_zero_padding 32 2024 3 7 3 7
      (by decide) (by decide) (by decide) (by decide)).1,
   (c4_zero_padding 32 2024 3 7 7 7
      (by decide) (by decide) (by decide) (by decide)).1⟩
